import Mathlib

/-
Verification of the XPC helper layer of freetracer
(src/freetracer-lib/src/macos/xpc/xpc_helper.c and xpc_helper.h).

The C code installs event-handler blocks on XPC connections.  We embed it
shallowly: an xpc_object_t is a pair of a type tag and an identity; a block
installed by one of the three Set-EventHandler functions is a pure function
from an incoming event to the list of observable actions (handler callback
invocations, stderr logging, transport operations) the block performs.  The
transport operations the helper functions themselves perform at call time
(xpc_connection_set_event_handler, xpc_connection_resume) are recorded in a
call-time trace.  Caller-supplied function pointers (XPCConnectionHandler,
XPCMessageHandler, XPCServiceEventHandler) are opaque and are represented by
numeric identifiers; an invocation is recorded as data rather than executed.
-/

namespace Freetracer

/-- The xpc object types the helper code distinguishes with xpc_get_type:
XPC_TYPE_CONNECTION, XPC_TYPE_DICTIONARY, XPC_TYPE_ERROR; every other xpc
type (array, string, activity, ...) is collapsed into an indexed other
constructor, since the code treats all of them alike. -/
inductive XPCType where
  | connection
  | dictionary
  | error
  | other (k : Nat)
deriving DecidableEq

/-- An xpc_object_t: its xpc type together with an identity distinguishing
distinct objects of the same type. -/
structure XPCObject where
  xtype : XPCType
  objId : Nat
deriving DecidableEq

/-- xpc_get_type from the host transport: returns the type tag. -/
def xpc_get_type (o : XPCObject) : XPCType := o.xtype

/-- xpc_copy_description from the host transport: an opaque textual
description of the object, distinct per object identity. -/
def xpc_copy_description (o : XPCObject) : String :=
  "xpc object " ++ toString o.objId

/-- The observable actions a helper function or an installed block can
perform.  The three call constructors record an invocation of a
caller-supplied function pointer (identified by a Nat) with its arguments;
setEventHandler and resume record calls into the host transport;
logStderr records the fprintf to stderr in XPCMessageSetEventHandler;
validateConnection records a call of the declared security hook
XPCSecurityValidateConnection (declared in xpc_helper.h). -/
inductive Action where
  | setEventHandler (conn : XPCObject)
  | resume (conn : XPCObject)
  | callConnectionHandler (h : Nat) (peer : XPCObject) (messageHandler : Nat)
  | callMessageHandler (h : Nat) (conn : XPCObject) (event : XPCObject)
  | callServiceHandler (h : Nat) (conn : XPCObject) (event : XPCObject)
  | logStderr (msg : String)
  | validateConnection (msg : XPCObject)
deriving DecidableEq

/-- The block XPCConnectionSetEventHandler installs on the listener
connection: if the incoming object is of XPC_TYPE_CONNECTION it calls
connectionHandler(peer, messageHandler), passing the NEW connection (peer),
not the listener connection; every other event falls through the if with no
action. -/
def connectionEventBlock (connectionHandler messageHandler : Nat)
    (peer : XPCObject) : List Action :=
  if xpc_get_type peer = XPCType.connection then
    [Action.callConnectionHandler connectionHandler peer messageHandler]
  else []

/-- The block XPCMessageSetEventHandler installs: a dictionary event is
passed to msgHandler(connection, event), an error event is printed to
stderr, and any other type falls through both branches with no action.
The connection argument is the connection the block closed over. -/
def messageEventBlock (connection : XPCObject) (msgHandler : Nat)
    (event : XPCObject) : List Action :=
  if xpc_get_type event = XPCType.dictionary then
    [Action.callMessageHandler msgHandler connection event]
  else if xpc_get_type event = XPCType.error then
    [Action.logStderr ("XPC Connection Error: " ++ xpc_copy_description event)]
  else []

/-- The block XPCServiceSetEventHandler installs: every event is passed to
eventHandler(connection, event) unconditionally, with no inspection of the
event type. -/
def serviceEventBlock (connection : XPCObject) (eventHandler : Nat)
    (event : XPCObject) : List Action :=
  [Action.callServiceHandler eventHandler connection event]

/-- Which of the three block shapes is installed on a connection, with the
caller-supplied handler identifiers it captured. -/
inductive InstalledBlock where
  | listener (connectionHandler messageHandler : Nat)
  | message (conn : XPCObject) (msgHandler : Nat)
  | service (conn : XPCObject) (eventHandler : Nat)
deriving DecidableEq

/-- Run the installed block on one incoming event, yielding the actions it
performs. -/
def runBlock : InstalledBlock → XPCObject → List Action
  | InstalledBlock.listener ch mh, ev => connectionEventBlock ch mh ev
  | InstalledBlock.message c mh, ev => messageEventBlock c mh ev
  | InstalledBlock.service c h, ev => serviceEventBlock c h ev

/-- Per-connection mapping from a connection identity to the block installed
on it by xpc_connection_set_event_handler (most recent installation first). -/
abbrev Registry := List (Nat × InstalledBlock)

/-- The host transport delivers a raw event to a connection: the block
installed on that connection runs on the event; a connection with no
installed block performs no action. -/
def deliver (reg : Registry) (connId : Nat) (event : XPCObject) : List Action :=
  match reg.lookup connId with
  | some b => runBlock b event
  | none => []

/-- XPCConnectionSetEventHandler: installs the listener block capturing
connectionHandler and messageHandler.  It performs no resume at call time
and its block performs none either. -/
def XPCConnectionSetEventHandler (reg : Registry) (connection : XPCObject)
    (connectionHandler messageHandler : Nat) : Registry × List Action :=
  ((connection.objId,
    InstalledBlock.listener connectionHandler messageHandler) :: reg,
   [Action.setEventHandler connection])

/-- XPCMessageSetEventHandler: installs the message block capturing the
connection and msgHandler.  Per the source comment, it does not call resume;
the caller handles that. -/
def XPCMessageSetEventHandler (reg : Registry) (connection : XPCObject)
    (msgHandler : Nat) : Registry × List Action :=
  ((connection.objId, InstalledBlock.message connection msgHandler) :: reg,
   [Action.setEventHandler connection])

/-- XPCServiceSetEventHandler: installs the service block capturing the
connection and eventHandler, then calls xpc_connection_resume on the
connection. -/
def XPCServiceSetEventHandler (reg : Registry) (connection : XPCObject)
    (eventHandler : Nat) : Registry × List Action :=
  ((connection.objId, InstalledBlock.service connection eventHandler) :: reg,
   [Action.setEventHandler connection, Action.resume connection])

/-- True exactly for the actions that invoke a caller-registered handler
callback (not transport calls, not stderr logging). -/
def isHandlerCall : Action → Bool
  | Action.callConnectionHandler _ _ _ => true
  | Action.callMessageHandler _ _ _ => true
  | Action.callServiceHandler _ _ _ => true
  | _ => false

/-- True exactly for the actions that invoke the specific handler h. -/
def callsHandler (h : Nat) : Action → Bool
  | Action.callConnectionHandler g _ _ => g == h
  | Action.callMessageHandler g _ _ => g == h
  | Action.callServiceHandler g _ _ => g == h
  | _ => false

/-- The transport-level events a connection can observe after a send, as far
as the request/reply correlator is concerned: a correlated reply carrying a
token and a payload, an invalidation of the connection, or anything
unrelated to the pending request. -/
inductive ConnEvent where
  | reply (token payload : Nat)
  | invalidate
  | unrelated
deriving DecidableEq

/-- A terminal event for the pending reply keyed by token: either the
correlated reply itself or an invalidation of the connection. -/
def isTerminalFor (token : Nat) : ConnEvent → Bool
  | ConnEvent.reply t _ => t == token
  | ConnEvent.invalidate => true
  | ConnEvent.unrelated => false

/-- What the reply callback receives when invoked. -/
inductive ReplyOutcome where
  | replied (payload : Nat)
  | connectionLost
deriving DecidableEq

/-- Modelled from the spec: the resolution of one PendingReply against the
stream of later events on its connection.  The implementation of
XPCConnectionSendMessageWithReply is not in the provided sources (only the
declaration in xpc_helper.h); section 4.4 of the spec states that the
PendingReply is consumed by the first terminal event — a correlated reply
invokes onReply with the payload, an invalidation of the connection invokes
onReply with ConnectionLost — and the callback is never invoked again
afterwards.  The result lists the invocations of onReply in order. -/
def replyInvocations (token : Nat) : List ConnEvent → List ReplyOutcome
  | [] => []
  | ConnEvent.reply t p :: rest =>
      if t = token then [ReplyOutcome.replied p]
      else replyInvocations token rest
  | ConnEvent.invalidate :: _ => [ReplyOutcome.connectionLost]
  | ConnEvent.unrelated :: rest => replyInvocations token rest

/-- Result of a sendWithReply call: either the synchronous SendFailed error
(case c of section 4.4, no PendingReply recorded, the callback never runs),
or the list of callback invocations produced by the later events. -/
inductive SendResult where
  | sendFailed
  | completed (invocations : List ReplyOutcome)
deriving DecidableEq

/-- Modelled from the spec: XPCConnectionSendMessageWithReply (declared in
xpc_helper.h, implementation not in the provided sources).  sendOk is
whether the host transport accepts the send; when it does not, the call
fails synchronously with SendFailed and records no PendingReply; when it
does, a PendingReply keyed by token is recorded and resolved against the
future events of the connection. -/
def XPCConnectionSendMessageWithReply (sendOk : Bool) (token : Nat)
    (future : List ConnEvent) : SendResult :=
  if sendOk then SendResult.completed (replyInvocations token future)
  else SendResult.sendFailed

/-- The dispatch queue feeding handler invocations: the invocations queued
but not yet run, and those already run to completion, in order. -/
structure DispatchQueue where
  queued : List Action
  completed : List Action
deriving DecidableEq

/-- Run the queued invocations in order, appending each to the completed
list; structural recursion on the snapshot, so it returns for every finite
queue. -/
def runQueued : List Action → List Action → List Action
  | [], done => done
  | a :: rest, done => runQueued rest (done ++ [a])

/-- Modelled from the spec: XPCProcessDispatchedEvents, the dispatch pump
drain (declared in xpc_helper.h, implementation not in the provided
sources).  Section 4.5 of the spec: it blocks only until the handler
invocations already queued at the moment of the call have run to
completion.  It therefore consumes exactly the snapshot of the queue taken
at call time. -/
def XPCProcessDispatchedEvents (q : DispatchQueue) : DispatchQueue :=
  { queued := [], completed := runQueued q.queued q.completed }

/-- A drain call with events arriving after the call starts: the drain runs
on the snapshot taken at call time, and the later arrivals are queued
behind it, not consumed by it. -/
def drainThenArrive (q : DispatchQueue) (later : List Action) : DispatchQueue :=
  { queued := (XPCProcessDispatchedEvents q).queued ++ later,
    completed := (XPCProcessDispatchedEvents q).completed }

/-! Theorems for the claims. -/

/-- Every action list a block produces contains at most one handler-callback
invocation: the listener block produces at most the connectionHandler call,
the message block at most the msgHandler call (the error branch only logs),
the service block exactly the eventHandler call. -/
theorem runBlock_at_most_one_handler_call (b : InstalledBlock) (ev : XPCObject) :
    (runBlock b ev).countP isHandlerCall ≤ 1 := by
  cases b with
  | listener ch mh =>
    simp only [runBlock, connectionEventBlock]
    split_ifs <;> simp [isHandlerCall]
  | message c mh =>
    simp only [runBlock, messageEventBlock]
    split_ifs <;> simp [isHandlerCall]
  | service c h =>
    simp [runBlock, serviceEventBlock, isHandlerCall]

/-- Claim C6: for every single incoming event on any connection configured by
XPCConnectionSetEventHandler, XPCMessageSetEventHandler, or
XPCServiceSetEventHandler, delivery invokes at most one registered handler
callback: the per-event branch taken is unique, so no event ever triggers
two different handler callbacks. -/
theorem deliver_at_most_one_handler (reg : Registry) (connId : Nat) (ev : XPCObject) :
    (deliver reg connId ev).countP isHandlerCall ≤ 1 := by
  unfold deliver
  cases h : reg.lookup connId with
  | none => simp
  | some b => exact runBlock_at_most_one_handler_call b ev

/-- Claim C5: XPCServiceSetEventHandler performs exactly one resume of the
connection per call, and only after the event handler has been wired: in the
trace of transport operations, setEventHandler on the connection precedes
the unique resume of the connection. -/
theorem service_resume_once_after_wiring (reg : Registry) (connection : XPCObject)
    (eventHandler : Nat) :
    ((XPCServiceSetEventHandler reg connection eventHandler).2.count
        (Action.resume connection) = 1) ∧
    ((XPCServiceSetEventHandler reg connection eventHandler).2.indexOf
        (Action.setEventHandler connection) <
      (XPCServiceSetEventHandler reg connection eventHandler).2.indexOf
        (Action.resume connection)) := by
  constructor
  · simp [XPCServiceSetEventHandler, List.count_cons]
  · simp [XPCServiceSetEventHandler, List.indexOf_cons]

/-- Claim C10: for every event delivered to a connection configured by
XPCServiceSetEventHandler, the registered service event handler is invoked
exactly once with that same connection object and the event, unconditionally
and regardless of the event type: the service block performs no
classification or filtering. -/
theorem service_block_invokes_unconditionally (reg : Registry) (connection : XPCObject)
    (eventHandler : Nat) (ev : XPCObject) :
    deliver (XPCServiceSetEventHandler reg connection eventHandler).1 connection.objId ev =
      [Action.callServiceHandler eventHandler connection ev] := by
  simp [XPCServiceSetEventHandler, deliver, List.lookup, runBlock, serviceEventBlock]

/-- Claim C1, counterexample: a listener (identity 0) configured by
XPCConnectionSetEventHandler with connectionHandler 10 and messageHandler 11
observes a NewConnection event for peer ⟨connection, 5⟩.  The actions
performed are exactly the invocation of the connection handler; in
particular the core performs no resume of the spawned peer, contradicting
the claim that resume is called on the peer immediately. -/
theorem listener_does_not_resume_peer_counterexample :
    deliver (XPCConnectionSetEventHandler [] ⟨XPCType.connection, 0⟩ 10 11).1 0
        ⟨XPCType.connection, 5⟩ =
      [Action.callConnectionHandler 10 ⟨XPCType.connection, 5⟩ 11] ∧
    Action.resume ⟨XPCType.connection, 5⟩ ∉
      deliver (XPCConnectionSetEventHandler [] ⟨XPCType.connection, 0⟩ 10 11).1 0
        ⟨XPCType.connection, 5⟩ := by
  constructor
  · decide
  · decide

/-- Claim C1, amended: when a NewConnection event is observed on a listener
configured by XPCConnectionSetEventHandler, the core invokes the connection
handler with the spawned peer and the forwarded message handler, and
performs no resume of any connection: neither the listener block on the
event nor XPCMessageSetEventHandler at call time resumes the peer, so the
caller must resume the accepted peer explicitly. -/
theorem listener_hands_off_peer_without_resume (reg : Registry) (listener peer : XPCObject)
    (connectionHandler messageHandler : Nat)
    (hpeer : peer.xtype = XPCType.connection) :
    (deliver (XPCConnectionSetEventHandler reg listener connectionHandler messageHandler).1
        listener.objId peer =
      [Action.callConnectionHandler connectionHandler peer messageHandler]) ∧
    (∀ c : XPCObject, Action.resume c ∉
      deliver (XPCConnectionSetEventHandler reg listener connectionHandler messageHandler).1
        listener.objId peer) ∧
    (∀ c : XPCObject, Action.resume c ∉
      (XPCMessageSetEventHandler reg peer messageHandler).2) := by
  refine ⟨?_, ?_, ?_⟩
  · simp [XPCConnectionSetEventHandler, deliver, List.lookup, runBlock,
      connectionEventBlock, xpc_get_type, hpeer]
  · intro c
    simp [XPCConnectionSetEventHandler, deliver, List.lookup, runBlock,
      connectionEventBlock, xpc_get_type, hpeer]
  · intro c
    simp [XPCMessageSetEventHandler]

/-- Claim C1, amended, witness at a concrete listener, peer and handler
pair. -/
theorem listener_hands_off_peer_without_resume_witness :
    (deliver (XPCConnectionSetEventHandler [] ⟨XPCType.connection, 0⟩ 20 21).1 0
        ⟨XPCType.connection, 6⟩ =
      [Action.callConnectionHandler 20 ⟨XPCType.connection, 6⟩ 21]) ∧
    (∀ c : XPCObject, Action.resume c ∉
      deliver (XPCConnectionSetEventHandler [] ⟨XPCType.connection, 0⟩ 20 21).1 0
        ⟨XPCType.connection, 6⟩) ∧
    (∀ c : XPCObject, Action.resume c ∉
      (XPCMessageSetEventHandler [] ⟨XPCType.connection, 6⟩ 21).2) :=
  listener_hands_off_peer_without_resume [] ⟨XPCType.connection, 0⟩
    ⟨XPCType.connection, 6⟩ 20 21 rfl

/-- Claim C2: a listener configured by XPCConnectionSetEventHandler passes
each accepted peer object — not the listener itself — to the connection
handler together with the forwarded peer message handler; once the peer has
the message block installed (by XPCMessageSetEventHandler with that
forwarded handler), a Message event arriving on the peer invokes exactly
the forwarded peer handler and never any handler registered only on the
listener. -/
theorem peer_gets_peer_handler_set (reg : Registry) (listener peer msg : XPCObject)
    (connectionHandler messageHandler : Nat)
    (hpeer : peer.xtype = XPCType.connection)
    (hmsg : msg.xtype = XPCType.dictionary)
    (hdistinct : connectionHandler ≠ messageHandler) :
    (deliver (XPCConnectionSetEventHandler reg listener connectionHandler messageHandler).1
        listener.objId peer =
      [Action.callConnectionHandler connectionHandler peer messageHandler]) ∧
    (deliver (XPCMessageSetEventHandler
          (XPCConnectionSetEventHandler reg listener connectionHandler messageHandler).1
          peer messageHandler).1 peer.objId msg =
      [Action.callMessageHandler messageHandler peer msg]) ∧
    (∀ a ∈ deliver (XPCMessageSetEventHandler
          (XPCConnectionSetEventHandler reg listener connectionHandler messageHandler).1
          peer messageHandler).1 peer.objId msg,
      callsHandler connectionHandler a = false) := by
  refine ⟨?_, ?_, ?_⟩
  · simp [XPCConnectionSetEventHandler, deliver, List.lookup, runBlock,
      connectionEventBlock, xpc_get_type, hpeer]
  · simp [XPCConnectionSetEventHandler, XPCMessageSetEventHandler, deliver,
      List.lookup, runBlock, messageEventBlock, xpc_get_type, hmsg]
  · intro a ha
    simp [XPCConnectionSetEventHandler, XPCMessageSetEventHandler, deliver,
      List.lookup, runBlock, messageEventBlock, xpc_get_type, hmsg] at ha
    subst ha
    simp [callsHandler]
    exact fun hc => hdistinct hc.symm

/-- Claim C2, witness: listener identity 0 with connection handler 30,
forwarded peer message handler 31, peer identity 7, message identity 8. -/
theorem peer_gets_peer_handler_set_witness :
    (deliver (XPCConnectionSetEventHandler [] ⟨XPCType.connection, 0⟩ 30 31).1 0
        ⟨XPCType.connection, 7⟩ =
      [Action.callConnectionHandler 30 ⟨XPCType.connection, 7⟩ 31]) ∧
    (deliver (XPCMessageSetEventHandler
          (XPCConnectionSetEventHandler [] ⟨XPCType.connection, 0⟩ 30 31).1
          ⟨XPCType.connection, 7⟩ 31).1 7 ⟨XPCType.dictionary, 8⟩ =
      [Action.callMessageHandler 31 ⟨XPCType.connection, 7⟩ ⟨XPCType.dictionary, 8⟩]) ∧
    (∀ a ∈ deliver (XPCMessageSetEventHandler
          (XPCConnectionSetEventHandler [] ⟨XPCType.connection, 0⟩ 30 31).1
          ⟨XPCType.connection, 7⟩ 31).1 7 ⟨XPCType.dictionary, 8⟩,
      callsHandler 30 a = false) :=
  peer_gets_peer_handler_set [] ⟨XPCType.connection, 0⟩ ⟨XPCType.connection, 7⟩
    ⟨XPCType.dictionary, 8⟩ 30 31 rfl rfl (by decide)

/-- Claim C3, counterexample: an event of an unrecognized xpc type (other 1,
say an array) delivered to a connection with the message block installed
produces no action at all — it is silently dropped, not mapped to an Error
with a descriptive message; and a dictionary event delivered to a listener
with the listener block is likewise silently dropped. -/
theorem unclassifiable_event_silently_dropped_counterexample :
    deliver (XPCMessageSetEventHandler [] ⟨XPCType.connection, 1⟩ 7).1 1
        ⟨XPCType.other 1, 3⟩ = [] ∧
    deliver (XPCConnectionSetEventHandler [] ⟨XPCType.connection, 0⟩ 10 11).1 0
        ⟨XPCType.dictionary, 4⟩ = [] := by
  constructor
  · decide
  · decide

/-- Claim C3, amended: classification is exhaustive over only the recognized
types and every unrecognized event is silently dropped with no action: on
the message path a Dictionary event invokes the message handler and an
Error event is logged to stderr, but any other type produces no action; on
the listener path only a Connection event produces an action; so an event
can well result in no action at all. -/
theorem classification_drops_unrecognized (c ev : XPCObject) (msgHandler : Nat) :
    (ev.xtype ≠ XPCType.dictionary → ev.xtype ≠ XPCType.error →
      messageEventBlock c msgHandler ev = []) ∧
    (∀ connectionHandler messageHandler : Nat, ev.xtype ≠ XPCType.connection →
      connectionEventBlock connectionHandler messageHandler ev = []) ∧
    (messageEventBlock c msgHandler ev ≠ [] →
      ev.xtype = XPCType.dictionary ∨ ev.xtype = XPCType.error) := by
  refine ⟨?_, ?_, ?_⟩
  · intro h1 h2
    simp [messageEventBlock, xpc_get_type, h1, h2]
  · intro ch mh h
    simp [connectionEventBlock, xpc_get_type, h]
  · intro hne
    by_contra hcon
    push_neg at hcon
    exact hne (by simp [messageEventBlock, xpc_get_type, hcon.1, hcon.2])

/-- Claim C3, amended, witness: an event of type other 2 produces no action
on the message path, and a dictionary event produces no action on the
listener path. -/
theorem classification_drops_unrecognized_witness :
    (messageEventBlock ⟨XPCType.connection, 1⟩ 7 ⟨XPCType.other 2, 9⟩ = []) ∧
    (connectionEventBlock 10 11 ⟨XPCType.dictionary, 9⟩ = []) :=
  ⟨(classification_drops_unrecognized ⟨XPCType.connection, 1⟩ ⟨XPCType.other 2, 9⟩ 7).1
      (by decide) (by decide),
   (classification_drops_unrecognized ⟨XPCType.connection, 1⟩ ⟨XPCType.dictionary, 9⟩ 7).2.1
      10 11 (by decide)⟩

/-- Claim C4, counterexample: an error-typed event delivered to a connection
with the message block installed is written to stderr and invokes no
handler callback at all — it is diverted to a side channel, not converted
to an ErrorEvent and delivered through a registered Error handler. -/
theorem error_event_diverted_to_stderr_counterexample :
    deliver (XPCMessageSetEventHandler [] ⟨XPCType.connection, 1⟩ 7).1 1
        ⟨XPCType.error, 4⟩ =
      [Action.logStderr ("XPC Connection Error: " ++ xpc_copy_description ⟨XPCType.error, 4⟩)] ∧
    (deliver (XPCMessageSetEventHandler [] ⟨XPCType.connection, 1⟩ 7).1 1
        ⟨XPCType.error, 4⟩).countP isHandlerCall = 0 := by
  constructor
  · decide
  · decide

/-- Claim C4, amended: an error-typed event received on a connection
configured by XPCMessageSetEventHandler is logged to stderr with the
description of the event and is not delivered to any handler callback; the
code has no registered-Error-handler dispatch path. -/
theorem error_event_logged_not_dispatched (c ev : XPCObject) (msgHandler : Nat)
    (herr : ev.xtype = XPCType.error) :
    messageEventBlock c msgHandler ev =
      [Action.logStderr ("XPC Connection Error: " ++ xpc_copy_description ev)] ∧
    (messageEventBlock c msgHandler ev).countP isHandlerCall = 0 := by
  constructor
  · simp [messageEventBlock, xpc_get_type, herr]
  · simp [messageEventBlock, xpc_get_type, herr, isHandlerCall]

/-- Claim C4, amended, witness at a concrete error event. -/
theorem error_event_logged_not_dispatched_witness :
    messageEventBlock ⟨XPCType.connection, 2⟩ 9 ⟨XPCType.error, 5⟩ =
      [Action.logStderr ("XPC Connection Error: " ++ xpc_copy_description ⟨XPCType.error, 5⟩)] ∧
    (messageEventBlock ⟨XPCType.connection, 2⟩ 9 ⟨XPCType.error, 5⟩).countP isHandlerCall = 0 :=
  error_event_logged_not_dispatched ⟨XPCType.connection, 2⟩ ⟨XPCType.error, 5⟩ 9 rfl

/-- Claim C9, counterexample: a dictionary (Message) event delivered to a
connection with the message block installed is dispatched directly to the
message handler, and no invocation of the security validation hook
XPCSecurityValidateConnection occurs before (or anywhere in) the dispatch —
the hook is declared in xpc_helper.h but never invoked. -/
theorem message_dispatched_without_validation_counterexample :
    deliver (XPCMessageSetEventHandler [] ⟨XPCType.connection, 2⟩ 9).1 2
        ⟨XPCType.dictionary, 6⟩ =
      [Action.callMessageHandler 9 ⟨XPCType.connection, 2⟩ ⟨XPCType.dictionary, 6⟩] ∧
    Action.validateConnection ⟨XPCType.dictionary, 6⟩ ∉
      deliver (XPCMessageSetEventHandler [] ⟨XPCType.connection, 2⟩ 9).1 2
        ⟨XPCType.dictionary, 6⟩ := by
  constructor
  · decide
  · decide

/-- Claim C9, amended: XPCSecurityValidateConnection is declared but never
invoked on any path: every incoming Message event is dispatched to the
registered message handler unconditionally, with no validation step before
dispatch, and more generally no block installed by any of the three
configuration functions ever performs a validation action. -/
theorem message_dispatch_has_no_validation_hook (c msg : XPCObject) (msgHandler : Nat)
    (hmsg : msg.xtype = XPCType.dictionary) :
    messageEventBlock c msgHandler msg = [Action.callMessageHandler msgHandler c msg] ∧
    (∀ b : InstalledBlock, ∀ ev m : XPCObject,
      Action.validateConnection m ∉ runBlock b ev) := by
  constructor
  · simp [messageEventBlock, xpc_get_type, hmsg]
  · intro b ev m
    cases b with
    | listener ch mh =>
      simp only [runBlock, connectionEventBlock]
      split_ifs <;> simp
    | message cc mh =>
      simp only [runBlock, messageEventBlock]
      split_ifs <;> simp
    | service cc h =>
      simp [runBlock, serviceEventBlock]

/-- Claim C9, amended, witness at a concrete message event. -/
theorem message_dispatch_has_no_validation_hook_witness :
    messageEventBlock ⟨XPCType.connection, 3⟩ 12 ⟨XPCType.dictionary, 7⟩ =
      [Action.callMessageHandler 12 ⟨XPCType.connection, 3⟩ ⟨XPCType.dictionary, 7⟩] ∧
    (∀ b : InstalledBlock, ∀ ev m : XPCObject,
      Action.validateConnection m ∉ runBlock b ev) :=
  message_dispatch_has_no_validation_hook ⟨XPCType.connection, 3⟩
    ⟨XPCType.dictionary, 7⟩ 12 rfl

/-- A pending reply is never resolved twice: the invocation list has at
most one element for every future event stream. -/
theorem replyInvocations_length_le_one (token : Nat) (evs : List ConnEvent) :
    (replyInvocations token evs).length ≤ 1 := by
  induction evs with
  | nil => simp [replyInvocations]
  | cons e rest ih =>
    cases e with
    | reply t p =>
      by_cases ht : t = token
      · simp [replyInvocations, ht]
      · simpa [replyInvocations, ht] using ih
    | invalidate => simp [replyInvocations]
    | unrelated => simpa [replyInvocations] using ih

/-- If a terminal event for the pending reply occurs in the future stream,
the callback is invoked exactly once. -/
theorem replyInvocations_length_eq_one (token : Nat) (evs : List ConnEvent)
    (h : evs.any (isTerminalFor token) = true) :
    (replyInvocations token evs).length = 1 := by
  induction evs with
  | nil => simp at h
  | cons e rest ih =>
    cases e with
    | reply t p =>
      by_cases ht : t = token
      · simp [replyInvocations, ht]
      · simp only [List.any_cons, isTerminalFor, Bool.or_eq_true, beq_iff_eq, ht,
          false_or] at h
        simpa [replyInvocations, ht] using ih h
    | invalidate => simp [replyInvocations]
    | unrelated =>
      simp only [List.any_cons, isTerminalFor, Bool.false_or] at h
      simpa [replyInvocations] using ih h

/-- The single invocation matches the first terminal event of the stream: a
matching reply delivers its payload, an invalidation delivers
ConnectionLost. -/
theorem replyInvocations_matches_first_terminal (token : Nat) (evs : List ConnEvent) :
    (∀ t p, evs.find? (isTerminalFor token) = some (ConnEvent.reply t p) →
      replyInvocations token evs = [ReplyOutcome.replied p]) ∧
    (evs.find? (isTerminalFor token) = some ConnEvent.invalidate →
      replyInvocations token evs = [ReplyOutcome.connectionLost]) := by
  induction evs with
  | nil => exact ⟨fun t p h => by simp [List.find?] at h, fun h => by simp [List.find?] at h⟩
  | cons e rest ih =>
    cases e with
    | reply t2 p2 =>
      by_cases ht : t2 = token
      · constructor
        · intro t p h
          simp [List.find?, isTerminalFor, ht] at h
          simp [replyInvocations, ht, h.2]
        · intro h
          simp [List.find?, isTerminalFor, ht] at h
      · constructor
        · intro t p h
          rw [List.find?_cons_of_neg _ (by simp [isTerminalFor, ht])] at h
          simpa [replyInvocations, ht] using ih.1 t p h
        · intro h
          rw [List.find?_cons_of_neg _ (by simp [isTerminalFor, ht])] at h
          simpa [replyInvocations, ht] using ih.2 h
    | invalidate =>
      constructor
      · intro t p h
        simp [List.find?, isTerminalFor] at h
      · intro h
        simp [replyInvocations]
    | unrelated =>
      constructor
      · intro t p h
        simp only [List.find?, isTerminalFor] at h
        simpa [replyInvocations] using ih.1 t p h
      · intro h
        simp only [List.find?, isTerminalFor] at h
        simpa [replyInvocations] using ih.2 h

/-- Claim C7: a sendWithReply call that does not fail synchronously with
SendFailed records a pending reply that is resolved by the future events of
the connection; when a terminal event occurs (the correlated reply arrives,
or the connection is invalidated first), the reply callback is invoked
exactly once — with the payload of the first terminal event when it is the
correlated reply, with ConnectionLost when it is an invalidation — never
twice and never left uninvoked. -/
theorem sendWithReply_callback_exactly_once (sendOk : Bool) (token : Nat)
    (future : List ConnEvent)
    (hok : XPCConnectionSendMessageWithReply sendOk token future ≠ SendResult.sendFailed)
    (hterm : future.any (isTerminalFor token) = true) :
    (XPCConnectionSendMessageWithReply sendOk token future =
      SendResult.completed (replyInvocations token future)) ∧
    (replyInvocations token future).length = 1 ∧
    (∀ t p, future.find? (isTerminalFor token) = some (ConnEvent.reply t p) →
      replyInvocations token future = [ReplyOutcome.replied p]) ∧
    (future.find? (isTerminalFor token) = some ConnEvent.invalidate →
      replyInvocations token future = [ReplyOutcome.connectionLost]) := by
  have hs : sendOk = true := by
    cases sendOk
    · simp [XPCConnectionSendMessageWithReply] at hok
    · rfl
  subst hs
  exact ⟨by simp [XPCConnectionSendMessageWithReply],
    replyInvocations_length_eq_one token future hterm,
    (replyInvocations_matches_first_terminal token future).1,
    (replyInvocations_matches_first_terminal token future).2⟩

/-- Claim C7, witness: the scenario of the spec — a send followed by an
invalidation of the connection before any reply arrives — invokes the
callback with ConnectionLost exactly once. -/
theorem sendWithReply_callback_exactly_once_witness :
    (XPCConnectionSendMessageWithReply true 0
        [ConnEvent.unrelated, ConnEvent.invalidate] =
      SendResult.completed (replyInvocations 0
        [ConnEvent.unrelated, ConnEvent.invalidate])) ∧
    (replyInvocations 0 [ConnEvent.unrelated, ConnEvent.invalidate]).length = 1 ∧
    (∀ t p, [ConnEvent.unrelated, ConnEvent.invalidate].find? (isTerminalFor 0) =
        some (ConnEvent.reply t p) →
      replyInvocations 0 [ConnEvent.unrelated, ConnEvent.invalidate] =
        [ReplyOutcome.replied p]) ∧
    ([ConnEvent.unrelated, ConnEvent.invalidate].find? (isTerminalFor 0) =
        some ConnEvent.invalidate →
      replyInvocations 0 [ConnEvent.unrelated, ConnEvent.invalidate] =
        [ReplyOutcome.connectionLost]) :=
  sendWithReply_callback_exactly_once true 0
    [ConnEvent.unrelated, ConnEvent.invalidate] (by decide) (by decide)

/-- Running the queued invocations appends exactly the snapshot to the
completed list. -/
theorem runQueued_eq_append (l done : List Action) : runQueued l done = done ++ l := by
  induction l generalizing done with
  | nil => simp [runQueued]
  | cons a rest ih => simp [runQueued, ih]

/-- Claim C8: a drain call consumes exactly the handler invocations queued
at the moment of the call — its completed list is the prior completed list
followed by the snapshot, the drained queue is empty — and invocations
arriving after the call starts are not consumed by it: they remain queued
behind the drain, whose result does not depend on them.  The drain is a
total structurally recursive function, so it returns for every finite
queue. -/
theorem drain_processes_exactly_snapshot (q : DispatchQueue) (later : List Action) :
    (XPCProcessDispatchedEvents q).completed = q.completed ++ q.queued ∧
    (XPCProcessDispatchedEvents q).queued = [] ∧
    (drainThenArrive q later).completed = q.completed ++ q.queued ∧
    (drainThenArrive q later).queued = later := by
  refine ⟨?_, rfl, ?_, ?_⟩ <;>
    simp [XPCProcessDispatchedEvents, drainThenArrive, runQueued_eq_append]

end Freetracer
